import Mathlib

/-!
Shallow embedding of the pymcp server core (src/pymcp): the tool registry
and loader (tools/registry.py, tools/loader.py), the wire schema
(protocols/base_msg.py, protocols/requests.py, protocols/responses.py),
the validator (server/validator.py), the tool executor
(server/tool_executor.py), the registry hot-swap (lib.py / server.py) and
the connection manager (server/connection_manager.py).

Python dicts are modelled as insertion-ordered association lists, machine
UUIDs as natural numbers (the 128-bit value), raised exceptions as
`Except` / `Option` error components, and in-place mutation as explicit
state passing (a method that may raise returns the post-state of the
object together with the raised error, the post-state being the receiver
itself when the method raises before mutating).
-/

namespace Pymcp

/-- UUIDs are modelled by their 128-bit numeric value. -/
abbrev UUID := Nat

/-- The all-zero UUID `00000000-0000-0000-0000-000000000000` used by the
validator when the inbound header cannot be trusted. -/
def zeroUUID : UUID := 0

/-! ## protocols/tools_def.py -/

/-- `ToolArgument` from protocols/tools_def.py. -/
structure ToolArgument where
  name : String
  type : String
  description : Option String := none
  required : Bool := true
deriving DecidableEq, Repr

/-- `ToolDefinition` from protocols/tools_def.py. -/
structure ToolDefinition where
  name : String
  description : String
  args : List ToolArgument
deriving DecidableEq, Repr

/-! ## tools/registry.py : Tool -/

/-- Runtime values flowing through tool calls.  Client-supplied argument
values come from JSON (`vnull/vbool/vint/vstr/vlist`); `vregistry` stands
for the live `ToolRegistry` object the executor injects under the
`tool_registry` parameter (`self.tool_registry` in tool_executor.py) -
clients cannot produce it, since JSON decoding never yields it. -/
inductive Value where
  | vnull : Value
  | vbool : Bool → Value
  | vint : Int → Value
  | vstr : String → Value
  | vlist : List Value → Value
  | vregistry : Value
deriving BEq, Repr

/-- One declared parameter of a Python callable, as seen by
`inspect.signature`: its name, the annotation rendered as a string
(tools_def uses "any" when absent), and whether it has a default. -/
structure Param where
  name : String
  type : String := "any"
  hasDefault : Bool := false

/-- A Python callable: its declared signature and its behaviour on a
bound keyword-argument mapping (`Except` models a raised exception). -/
structure PyFunc where
  params : List Param
  run : List (String × Value) → Except String Value

/-- Python keyword-call binding: `f(**kwargs)` raises `TypeError` when a
keyword does not match a declared parameter or a parameter without a
default is missing. -/
def bindingOk (params : List Param) (kwargs : List (String × Value)) : Bool :=
  kwargs.all (fun kv => params.any (fun p => p.name = kv.1)) &&
    params.all (fun p => p.hasDefault || kwargs.any (fun kv => kv.1 = p.name))

/-- Calling a Python function with keyword arguments: a binding failure
raises `TypeError`; otherwise the body runs (and may itself raise). -/
def callPy (f : PyFunc) (kwargs : List (String × Value)) : Except String Value :=
  if bindingOk f.params kwargs then f.run kwargs else Except.error "TypeError"

/-- `Tool.INJECTED_REGISTRY_PARAM` from tools/registry.py. -/
def INJECTED_REGISTRY_PARAM : String := "tool_registry"

/-- `Tool` from tools/registry.py: a named callable with description;
the public argument list is introspected from the signature. -/
structure Tool where
  name : String
  func : PyFunc
  description : String

/-- `Tool._introspect_args`: every signature parameter except `self` and
the dependency-injected `tool_registry` becomes a public argument;
`required` holds exactly when the parameter has no default. -/
def Tool.introspect_args (f : PyFunc) : List ToolArgument :=
  (f.params.filter
      (fun p => ¬ (p.name = "self" ∨ p.name = INJECTED_REGISTRY_PARAM))).map
    (fun p => { name := p.name, type := p.type, required := !p.hasDefault })

/-- `Tool.execute`: invoke the wrapped callable with keyword arguments
(async/thread dispatch is immaterial to the value computed). -/
def Tool.execute (t : Tool) (kwargs : List (String × Value)) : Except String Value :=
  callPy t.func kwargs

/-- `Tool.get_definition` from tools/registry.py. -/
def Tool.get_definition (t : Tool) : ToolDefinition :=
  { name := t.name, description := t.description, args := Tool.introspect_args t.func }

/-! ## tools/registry.py : ToolRegistry -/

/-- `ToolRegistry` from tools/registry.py: the `_tools` dict, modelled as
an insertion-ordered association list from name to tool. -/
structure ToolRegistry where
  tools : List (String × Tool)

/-- The empty registry built by `ToolRegistry.__init__`. -/
def ToolRegistry.empty : ToolRegistry := ⟨[]⟩

/-- Membership test `tool.name in self._tools`. -/
def ToolRegistry.containsName (r : ToolRegistry) (n : String) : Bool :=
  r.tools.any (fun p => p.1 = n)

/-- `ToolRegistry.register`: raises `ValueError` on a name collision,
otherwise stores the tool.  Returned are the post-state of the registry
and the raised error, if any; the collision check precedes any mutation,
so on error the post-state is the receiver unchanged. -/
def ToolRegistry.register (r : ToolRegistry) (t : Tool) :
    ToolRegistry × Option String :=
  if r.containsName t.name then
    (r, some ("Tool name collision: a tool named " ++ t.name ++ " is already registered."))
  else
    (⟨r.tools ++ [(t.name, t)]⟩, none)

/-- `ToolRegistry.get_tool`: dict lookup by name. -/
def ToolRegistry.get_tool (r : ToolRegistry) (n : String) : Option Tool :=
  (r.tools.find? (fun p => p.1 = n)).map (fun p => p.2)

/-- The ordering `key=lambda t: t.name` used by `sorted` in
`get_all_definitions`. -/
def defLe (a b : ToolDefinition) : Prop := a.name ≤ b.name

instance : DecidableRel defLe := fun a b => inferInstanceAs (Decidable (a.name ≤ b.name))

instance : IsTotal ToolDefinition defLe := ⟨fun a b => le_total a.name b.name⟩

instance : IsTrans ToolDefinition defLe := ⟨fun _ _ _ h₁ h₂ => le_trans h₁ h₂⟩

/-- `ToolRegistry.get_all_definitions`: the definitions of all stored
tools, sorted by name (`sorted` is a stable sort; insertion sort models
it). -/
def ToolRegistry.get_all_definitions (r : ToolRegistry) : List ToolDefinition :=
  List.insertionSort defLe (r.tools.map (fun p => p.2.get_definition))

/-! ## core_tools/discovery.py -/

/-- `list_tools_available` from core_tools/discovery.py: returns
`tool_registry.get_all_definitions()` for the injected registry. -/
def list_tools_available (tool_registry : ToolRegistry) : List ToolDefinition :=
  tool_registry.get_all_definitions

/-! ## tools/loader.py -/

/-- `ToolLoader._load_tools_from_file`: the discovered tools of one file
are registered in order into the shared registry; the whole file body
runs under `try/except Exception`, so the first raised collision aborts
the remainder of the file, the error is printed, and the registry keeps
exactly the registrations made so far. -/
def load_tools_from_file (r : ToolRegistry) (ts : List Tool) : ToolRegistry :=
  match ts with
  | [] => r
  | t :: rest =>
    match r.register t with
    | (r', none) => load_tools_from_file r' rest
    | (r', some _) => r'

/-- `ToolLoader.load_registry`: builds a fresh registry by loading every
discovered file in order; per-file exceptions are caught inside
`_load_tools_from_file`, so this function always returns a registry. -/
def load_registry (files : List (List Tool)) : ToolRegistry :=
  files.foldl load_tools_from_file ToolRegistry.empty

/-- Whether two discovered tools across all files carry the same name. -/
def hasDupNames (files : List (List Tool)) : Bool :=
  dup ((files.foldr (· ++ ·) []).map (fun t => t.name))
where
  dup : List String → Bool
    | [] => false
    | n :: rest => rest.contains n || dup rest

/-! ## JSON documents and UUID strings -/

/-- A parsed JSON document (one WebSocket text frame carries one). -/
inductive Json where
  | null : Json
  | bool : Bool → Json
  | num : Int → Json
  | str : String → Json
  | arr : List Json → Json
  | obj : List (String × Json) → Json

/-- Field lookup in a JSON object body. -/
def lookupField (fields : List (String × Json)) (k : String) : Option Json :=
  (fields.find? (fun p => p.1 = k)).map (fun p => p.2)

/-- Value of one hexadecimal digit. -/
def hexVal (c : Char) : Option Nat :=
  if '0' ≤ c ∧ c ≤ '9' then some (c.toNat - '0'.toNat)
  else if 'a' ≤ c ∧ c ≤ 'f' then some (c.toNat - 'a'.toNat + 10)
  else if 'A' ≤ c ∧ c ≤ 'F' then some (c.toNat - 'A'.toNat + 10)
  else none

/-- Reads a run of hexadecimal digits into a number. -/
def readHex (cs : List Char) (acc : Nat) : Option Nat :=
  match cs with
  | [] => some acc
  | c :: rest =>
    match hexVal c with
    | some v => readHex rest (acc * 16 + v)
    | none => none

/-- Splits a character list on the hyphen separators of a UUID string. -/
def splitDash (cs : List Char) : List (List Char) :=
  match cs with
  | [] => [[]]
  | c :: rest =>
    let tail := splitDash rest
    if c = '-' then [] :: tail
    else
      match tail with
      | [] => [[c]]
      | g :: gs => (c :: g) :: gs

/-- Canonical `8-4-4-4-12` hyphenated UUID parsing, as performed by
`uuid.UUID` on the usual wire form; anything else is rejected. -/
def parseUUID (s : String) : Option UUID :=
  match splitDash s.toList with
  | [a, b, c, d, e] =>
    if a.length = 8 ∧ b.length = 4 ∧ c.length = 4 ∧ d.length = 4 ∧ e.length = 12 then
      readHex (a ++ b ++ c ++ d ++ e) 0
    else none
  | _ => none

/-! ## protocols/base_msg.py and protocols/requests.py -/

/-- `Header` from protocols/base_msg.py: only `correlation_id`, with
`default_factory=uuid4` minting a fresh UUID when the field is absent. -/
structure Header where
  correlation_id : UUID
deriving DecidableEq, Repr

/-- `ToolCallRequestBody` from protocols/requests.py: `tool_name` and the
`args` mapping (values are arbitrary JSON). -/
structure ToolCallRequestBody where
  tool_name : String
  args : List (String × Json)

/-- `ToolCallRequest` from protocols/requests.py; the `type` literal tag
defaults to `"tool_call"`. -/
structure ToolCallRequest where
  header : Header
  type : String := "tool_call"
  body : ToolCallRequestBody

/-- `ClientMessage = Union[ToolCallRequest]`, a one-variant union. -/
abbrev ClientMessage := ToolCallRequest

/-! ## Pydantic validation of the request schema

`fresh` is the UUID the next `uuid4()` call would mint; at most one mint
happens per validated message (either for a missing header or for a
missing `correlation_id` field). -/

/-- Validation of the `Header` model: a missing `correlation_id` is
filled by `default_factory=uuid4`; a present one must be a well-formed
UUID string; unknown fields are ignored. -/
def validateHeader (fresh : UUID) (j : Json) : Except String Header :=
  match j with
  | Json.obj fields =>
    match lookupField fields "correlation_id" with
    | none => Except.ok ⟨fresh⟩
    | some (Json.str s) =>
      match parseUUID s with
      | some u => Except.ok ⟨u⟩
      | none => Except.error "correlation_id: invalid UUID"
    | some _ => Except.error "correlation_id: UUID input should be a string"
  | _ => Except.error "header: input should be an object"

/-- Validation of `ToolCallRequestBody`: `tool_name` must be a present
string, `args` a present object. -/
def validateBody (j : Json) : Except String ToolCallRequestBody :=
  match j with
  | Json.obj fields =>
    match lookupField fields "tool_name" with
    | some (Json.str s) =>
      match lookupField fields "args" with
      | some (Json.obj kvs) => Except.ok ⟨s, kvs⟩
      | some _ => Except.error "args: input should be an object"
      | none => Except.error "args: field required"
    | some _ => Except.error "tool_name: input should be a string"
    | none => Except.error "tool_name: field required"
  | _ => Except.error "body: input should be an object"

/-- Validation of the `type` discriminator: absent defaults to
`"tool_call"`; present it must equal the literal. -/
def validateType (fields : List (String × Json)) : Except String Unit :=
  match lookupField fields "type" with
  | none => Except.ok ()
  | some (Json.str s) =>
    if s = "tool_call" then Except.ok () else Except.error "type: literal mismatch"
  | some _ => Except.error "type: input should be a string"

/-- `ClientMessage.model_validate` over a parsed JSON document: a missing
`header` is filled by its default factory (which mints a UUID); `body` is
required. -/
def model_validate (fresh : UUID) (j : Json) : Except String ClientMessage :=
  match j with
  | Json.obj fields =>
    validateType fields >>= fun _ =>
    (match lookupField fields "header" with
     | none => Except.ok (⟨fresh⟩ : Header)
     | some hj => validateHeader fresh hj) >>= fun h =>
    (match lookupField fields "body" with
     | some bj => validateBody bj
     | none => Except.error "body: field required") >>= fun b =>
    Except.ok { header := h, body := b }
  | _ => Except.error "input should be an object"

/-! ## Response messages

src/pymcp/protocols/responses.py is a stale schema revision: it declares
no top-level `status` field and no `error` field, although
base_msg.py's own comment ("status ... is now a top-level field on
response messages for discrimination") and every construction site in
validator.py and tool_executor.py (which pass `status=` and `error=`
keyword arguments) assume them.  Both revisions are embedded: the
coherent one the server logic targets, and the stale one actually on
file. -/

/-- `Error` from protocols/base_msg.py. -/
structure ErrorInfo where
  code : String
  message : String
deriving DecidableEq, Repr

/-- `ToolCallResponseBody` of the schema revision tool_executor.py
targets: the executed tool's name and its result. -/
structure ToolCallResponseBody where
  tool : String
  result : Value
deriving BEq, Repr

/-- Modelled from the spec: `ServerMessage` as the tagged response sum of
the coherent schema revision (success carries `status:"success"` and a
body, error carries `status:"error"` and an `Error`); src's responses.py
is a stale revision that lacks the `status` and `error` fields the
validator and executor construction sites pass. -/
inductive ServerMessage where
  | toolCallResponse : Header → ToolCallResponseBody → ServerMessage
  | errorResponse : Header → ErrorInfo → ServerMessage

/-- The header of a response message. -/
def ServerMessage.header : ServerMessage → Header
  | ServerMessage.toolCallResponse h _ => h
  | ServerMessage.errorResponse h _ => h

/-- The top-level `status` discriminator of a response message. -/
def ServerMessage.status : ServerMessage → String
  | ServerMessage.toolCallResponse _ _ => "success"
  | ServerMessage.errorResponse _ _ => "error"

/-- The `body` of a response message (`null` on the error variant). -/
def ServerMessage.body : ServerMessage → Option ToolCallResponseBody
  | ServerMessage.toolCallResponse _ b => some b
  | ServerMessage.errorResponse _ _ => none

/-- The `error` of a response message (`null` on the success variant). -/
def ServerMessage.error : ServerMessage → Option ErrorInfo
  | ServerMessage.toolCallResponse _ _ => none
  | ServerMessage.errorResponse _ e => some e

/-- The error code of an error response, when the message is one. -/
def ServerMessage.errCode : ServerMessage → Option String
  | ServerMessage.toolCallResponse _ _ => none
  | ServerMessage.errorResponse _ e => some e.code

/-! ## The stale responses.py revision, as on file -/

/-- `ErrorResponse` as declared in src/pymcp/protocols/responses.py: only
the inherited `header`, the `type` literal and a constantly-null `body`;
no `status` field, no `error` field. -/
structure SrcErrorResponse where
  header : Header
deriving DecidableEq, Repr

/-- The constantly-null `body: None = None` of the stale `ErrorResponse`. -/
def SrcErrorResponse.body (_ : SrcErrorResponse) : Option Value := none

/-- The JSON keys `model_dump_json` emits for the stale `ErrorResponse`:
its declared fields only. -/
def SrcErrorResponse.wireKeys : List String := ["header", "type", "body"]

/-- `ErrorResponse(status=..., header=..., error=...)` as called by
validator.py and tool_executor.py, against the stale model: pydantic's
default `extra="ignore"` configuration silently drops the `status` and
`error` keyword arguments because responses.py declares no such fields,
leaving only the header. -/
def mkSrcErrorResponse (_status : String) (cid : UUID) (_e : ErrorInfo) : SrcErrorResponse :=
  ⟨⟨cid⟩⟩

/-! ## server/validator.py -/

/-- A raw inbound frame, classified by JSON well-formedness: the
argument of `Validator.validate_message` either parses as a JSON
document or does not. -/
inductive RawMessage where
  | json : Json → RawMessage
  | notJson : String → RawMessage

/-- The error response validator.py builds on a schema
`ValidationError`: code `validation_error`, the all-zero correlation id,
and the validation message. -/
def mkValidationErrorResp (msg : String) : ServerMessage :=
  ServerMessage.errorResponse ⟨zeroUUID⟩ ⟨"validation_error", msg⟩

/-- The error response validator.py builds in its generic `except`
branch (unparseable JSON): code `invalid_json`, the all-zero correlation
id. -/
def mkInvalidJsonResp : ServerMessage :=
  ServerMessage.errorResponse ⟨zeroUUID⟩ ⟨"invalid_json", "Could not parse message"⟩

/-- The exceptions `ClientMessage.model_validate_json` can raise, as
validator.py distinguishes them: pydantic's `ValidationError` against
anything else. -/
inductive PydanticExc where
  | validationError : String → PydanticExc
  | otherExc : String → PydanticExc

/-- `ClientMessage.model_validate_json(message_json)` as pydantic v2
actually behaves: a frame that is not parseable JSON raises a
`ValidationError` too (error type `json_invalid`), not a distinct
parsing exception; a parseable frame failing the schema raises a
`ValidationError` with the schema message.  No other exception is
raised, so the generic `except Exception` branch of validator.py is
unreachable for parse failures, contrary to its own comment. -/
def model_validate_json (fresh : UUID) (raw : RawMessage) :
    Except PydanticExc ClientMessage :=
  match raw with
  | RawMessage.notJson _ => Except.error (PydanticExc.validationError "Invalid JSON")
  | RawMessage.json j =>
    match model_validate fresh j with
    | Except.ok m => Except.ok m
    | Except.error e => Except.error (PydanticExc.validationError e)

/-- `Validator.validate_message`: parse-and-validate the raw frame.  On
success the typed message is returned; on failure `None` is returned and
an error response is queued (modelled as the second component).  The
dispatch mirrors validator.py's two except-clauses: `except
ValidationError` yields `validation_error`, `except Exception` yields
`invalid_json` - but since `model_validate_json` raises
`ValidationError` for malformed JSON as well, the second branch never
fires. -/
def validate_message (fresh : UUID) (raw : RawMessage) :
    Option ClientMessage × Option ServerMessage :=
  match model_validate_json fresh raw with
  | Except.ok m => (some m, none)
  | Except.error (PydanticExc.validationError e) => (none, some (mkValidationErrorResp e))
  | Except.error (PydanticExc.otherExc _) => (none, some mkInvalidJsonResp)

/-! ## server/tool_executor.py

The executor reads `request.body.tool` and emits responses carrying
`status` and `error`: it targets the coherent schema revision.  The
request type it consumes is embedded below with that field name. -/

/-- Modelled from the spec: the request body of the schema revision the
executor targets (`body.tool`; src's requests.py is the stale revision
naming the field `tool_name`).  Argument values are runtime values. -/
structure ExecRequestBody where
  tool : String
  args : List (String × Value)

/-- Modelled from the spec: a validated `tool_call` request as consumed
by `ToolExecutor.execute`. -/
structure ExecRequest where
  header : Header
  body : ExecRequestBody

/-- `ToolExecutor` from server/tool_executor.py: holds the current
registry reference. -/
structure ToolExecutor where
  tool_registry : ToolRegistry

/-- Python dict assignment `d[k] = v`: replaces the value of an existing
key in place, otherwise appends the binding. -/
def setKey (l : List (String × Value)) (k : String) (v : Value) :
    List (String × Value) :=
  if l.any (fun kv => kv.1 = k) then
    l.map (fun kv => if kv.1 = k then (k, v) else kv)
  else l ++ [(k, v)]

/-- Whether the tool's declared signature contains the
`tool_registry` parameter (`Tool.INJECTED_REGISTRY_PARAM in
sig.parameters`). -/
def declaresRegistry (t : Tool) : Bool :=
  t.func.params.any (fun p => p.name = INJECTED_REGISTRY_PARAM)

/-- The dependency-injection step of `ToolExecutor.execute`: copy
`request.body.args` and, when the signature declares `tool_registry`,
assign the live registry (`vregistry`) under that key - overwriting any
client-supplied value. -/
def executionArgs (t : Tool) (args : List (String × Value)) :
    List (String × Value) :=
  if declaresRegistry t then setKey args INJECTED_REGISTRY_PARAM Value.vregistry
  else args

/-- `ToolExecutor.execute`: look up the tool (absent yields
`tool_not_found`), inject dependencies, invoke it, and wrap the result
or the raised exception (`execution_error`) into a response; every
branch echoes the request's correlation id. -/
def ToolExecutor.execute (e : ToolExecutor) (request : ExecRequest) : ServerMessage :=
  match e.tool_registry.get_tool request.body.tool with
  | none =>
    ServerMessage.errorResponse ⟨request.header.correlation_id⟩
      ⟨"tool_not_found", "Tool " ++ request.body.tool ++ " not found."⟩
  | some tool =>
    match tool.execute (executionArgs tool request.body.args) with
    | Except.ok result =>
      ServerMessage.toolCallResponse ⟨request.header.correlation_id⟩
        ⟨request.body.tool, result⟩
    | Except.error _ =>
      ServerMessage.errorResponse ⟨request.header.correlation_id⟩
        ⟨"execution_error",
          "An unexpected error occurred while executing tool " ++ request.body.tool ++ "."⟩

/-! ## lib.py / server/server.py : registry hot-swap -/

/-- `MCPServer` state relevant to dispatch: host, port and the executor
holding the current registry reference (server.py stores the registry
and hands it to the execution stage). -/
structure MCPServer where
  host : String
  port : Nat
  tool_executor : ToolExecutor

/-- Modelled from the spec: `MCPServer.update_tool_registry` - called by
`on_registry_update` in lib.py and main.py but not defined in src -
replaces the executor's registry reference in a single assignment
(`self.tool_executor.tool_registry = new_registry`), touching nothing
else. -/
def MCPServer.update_tool_registry (s : MCPServer) (new_registry : ToolRegistry) :
    MCPServer :=
  { s with tool_executor := { s.tool_executor with tool_registry := new_registry } }

/-- Snapshot capture at dispatch time: a dispatch reads the executor's
registry reference once into a local. -/
def dispatchCapture (s : MCPServer) : ToolRegistry :=
  s.tool_executor.tool_registry

/-- Resolution of a dispatch against its captured snapshot. -/
def dispatchResolve (snap : ToolRegistry) (request : ExecRequest) : ServerMessage :=
  ToolExecutor.execute ⟨snap⟩ request

/-! ## server/connection_manager.py -/

/-- One tracked WebSocket: whether the peer has closed it, and the
frames written so far. -/
structure ConnState where
  closed : Bool
  sent : List String
deriving DecidableEq, Repr

/-- `ConnectionManager`: the `active_connections` dict from connection
id to socket. -/
structure ConnectionManager where
  active_connections : List (UUID × ConnState)
deriving DecidableEq, Repr

/-- Dict lookup `self.active_connections.get(connection_id)`. -/
def ConnectionManager.get (m : ConnectionManager) (id : UUID) : Option ConnState :=
  (m.active_connections.find? (fun p => p.1 = id)).map (fun p => p.2)

/-- `ConnectionManager.disconnect`: removes the entry if present;
idempotent. -/
def ConnectionManager.disconnect (m : ConnectionManager) (id : UUID) :
    ConnectionManager :=
  ⟨m.active_connections.filter (fun p => p.1 ≠ id)⟩

/-- `ConnectionManager.send_message`: look up the socket; absent ids are
a no-op; on a live socket write one frame; a `ConnectionClosed` raised by
the write is swallowed (`pass`) - the entry is *not* removed here, the
reader task in the server handler performs the `disconnect` later. -/
def ConnectionManager.send_message (m : ConnectionManager) (id : UUID)
    (frame : String) : ConnectionManager :=
  match m.get id with
  | none => m
  | some ws =>
    if ws.closed then m
    else
      ⟨m.active_connections.map
        (fun p => if p.1 = id then (p.1, { p.2 with sent := p.2.sent ++ [frame] }) else p)⟩

/-! ## Concrete fixtures used as test inputs -/

/-- A tool body with no parameters that returns `null`. -/
def trivialFunc : PyFunc := ⟨[], fun _ => Except.ok Value.vnull⟩

/-- Fixture tool named `alpha`, first version. -/
def tAlpha1 : Tool := ⟨"alpha", trivialFunc, "first"⟩

/-- Fixture tool named `alpha`, second version: collides with the first. -/
def tAlpha2 : Tool := ⟨"alpha", trivialFunc, "second"⟩

/-- Fixture tool named `beta`. -/
def tBeta : Tool := ⟨"beta", trivialFunc, "beta tool"⟩

/-- A reload input with a name collision across files: `alpha` is
discovered twice. -/
def exFiles : List (List Tool) := [[tAlpha1], [tBeta, tAlpha2]]

/-- Registering a list of tools in order, keeping the post-state of each
`register` call (raised collisions leave the registry unchanged). -/
def registerAll (ts : List Tool) : ToolRegistry :=
  ts.foldl (fun r t => (r.register t).1) ToolRegistry.empty

/-- A registry already holding the first `alpha` tool. -/
def regAlpha : ToolRegistry := ⟨[("alpha", tAlpha1)]⟩

/-- Fixture tool that declares the injected `tool_registry` parameter and
returns whatever value was bound to it. -/
def echoRegistryTool : Tool :=
  ⟨"echo_registry",
    ⟨[{ name := INJECTED_REGISTRY_PARAM, type := "ToolRegistry" }],
      fun kwargs =>
        Except.ok
          (((kwargs.find? (fun kv => kv.1 = INJECTED_REGISTRY_PARAM)).map
              (fun kv => kv.2)).getD Value.vnull)⟩,
    "echoes the tool_registry argument it receives"⟩

/-- Fixture tool that declares no parameters at all. -/
def plainTool : Tool := ⟨"plain", trivialFunc, "does nothing"⟩

/-- Registry holding only the echo tool. -/
def regEcho : ToolRegistry := ⟨[("echo_registry", echoRegistryTool)]⟩

/-- Registry holding only the parameterless tool. -/
def regPlain : ToolRegistry := ⟨[("plain", plainTool)]⟩

/-- A `tool_call` request that passes `tool_registry` as a client
argument to the echo tool. -/
def reqEvil : ExecRequest :=
  ⟨⟨9⟩, ⟨"echo_registry", [("tool_registry", Value.vstr "evil")]⟩⟩

/-- A `tool_call` request that passes `tool_registry` as a client
argument to the parameterless tool. -/
def reqPlainEvil : ExecRequest :=
  ⟨⟨8⟩, ⟨"plain", [("tool_registry", Value.vstr "evil")]⟩⟩

/-- A request frame whose header object lacks `correlation_id`. -/
def jNoCid : Json :=
  Json.obj
    [("header", Json.obj []),
     ("body", Json.obj [("tool_name", Json.str "ping"), ("args", Json.obj [])])]

/-- A connection map holding one connection, id 5, whose socket the peer
has already closed. -/
def cmClosed : ConnectionManager := ⟨[(5, ⟨true, []⟩)]⟩

/-! # Theorems -/

/-- Claim C1 counterexample: on the reload input `exFiles`, tool name
`alpha` is discovered twice, yet `load_registry` does not fail: it
returns (and the loader publishes) a fresh registry that keeps the first
`alpha` and the unrelated `beta` and silently drops the colliding
second `alpha` - the collision neither aborts the reload nor preserves
the old registry. -/
theorem c1_counterexample :
    hasDupNames exFiles = true ∧
    (load_registry exFiles).tools.map Prod.fst = ["alpha", "beta"] ∧
    ((load_registry exFiles).get_tool "alpha").map Tool.description = some "first" ∧
    ((load_registry exFiles).get_tool "beta").map Tool.description = some "beta tool" :=
  ⟨rfl, rfl, rfl, rfl⟩

/-- Claim C1 (amended): `ToolRegistry.register` does reject a duplicate
name with an error, but `_load_tools_from_file` catches it: the
colliding tool and the remaining tools of its file are dropped while the
registry built so far is kept, and `load_registry` still returns (hence
publishes) the new registry. -/
theorem c1_theorem (r : ToolRegistry) (t : Tool) (rest : List Tool)
    (h : r.containsName t.name = true) :
    (r.register t).2.isSome = true ∧ load_tools_from_file r (t :: rest) = r := by
  simp [ToolRegistry.register, load_tools_from_file, h]

/-- Claim C1 witness: the amended statement at the concrete registry
already holding `alpha` and the colliding second `alpha` tool. -/
theorem c1_witness :
    (regAlpha.register tAlpha2).2.isSome = true ∧
      load_tools_from_file regAlpha (tAlpha2 :: [tBeta]) = regAlpha :=
  c1_theorem regAlpha tAlpha2 [tBeta] rfl

/-- Claim C10: `ToolRegistry.register` is atomic on failure - when it
raises the duplicate-name error the registry is unchanged, the
previously registered tool is still returned by `get_tool`, and every
lookup is as before. -/
theorem c10_theorem (r : ToolRegistry) (t : Tool) (msg : String)
    (h : (r.register t).2 = some msg) :
    (r.register t).1 = r ∧ (∃ t0, r.get_tool t.name = some t0) ∧
      ∀ n, ((r.register t).1).get_tool n = r.get_tool n := by
  by_cases hc : r.containsName t.name
  · refine ⟨by simp [ToolRegistry.register, hc], ?_, ?_⟩
    · have hx : ∃ p ∈ r.tools, p.1 = t.name := by
        simpa [ToolRegistry.containsName] using hc
      obtain ⟨p, hmem, hp⟩ := hx
      have : (r.tools.find? (fun q => q.1 = t.name)).isSome := by
        rw [List.find?_isSome]
        exact ⟨p, hmem, by simp [hp]⟩
      obtain ⟨q, hq⟩ := Option.isSome_iff_exists.mp this
      exact ⟨q.2, by simp [ToolRegistry.get_tool, hq]⟩
    · intro n
      simp [ToolRegistry.register, hc]
  · exfalso
    simp [ToolRegistry.register, hc] at h

/-- Claim C10 witness: registering the colliding second `alpha` tool
against the registry already holding `alpha` raises and changes
nothing. -/
theorem c10_witness :
    (regAlpha.register tAlpha2).1 = regAlpha ∧
      (∃ t0, regAlpha.get_tool tAlpha2.name = some t0) ∧
      ∀ n, ((regAlpha.register tAlpha2).1).get_tool n = regAlpha.get_tool n :=
  c10_theorem regAlpha tAlpha2
    "Tool name collision: a tool named alpha is already registered." rfl

/-- Claim C2: `update_tool_registry` replaces the executor's registry
reference in a single assignment (nothing else of the server changes);
a dispatch that captures its snapshot after the swap resolves against
the new registry, while one that captured before the swap still resolves
against the old snapshot. -/
theorem c2_theorem (s : MCPServer) (new_registry : ToolRegistry) (request : ExecRequest) :
    (s.update_tool_registry new_registry).tool_executor.tool_registry = new_registry ∧
    (s.update_tool_registry new_registry).host = s.host ∧
    (s.update_tool_registry new_registry).port = s.port ∧
    dispatchResolve (dispatchCapture (s.update_tool_registry new_registry)) request
      = ToolExecutor.execute ⟨new_registry⟩ request ∧
    dispatchResolve (dispatchCapture s) request
      = ToolExecutor.execute s.tool_executor request :=
  ⟨rfl, rfl, rfl, rfl, rfl⟩

/-- Claim C5: contrary to the claim, the `ErrorResponse` model actually
declared in src/pymcp/protocols/responses.py carries no top-level
`status` field and no `error` field at all: the `status=` and `error=`
keyword arguments passed by tool_executor.py and validator.py are
silently dropped (the built response does not depend on them), the body
is constantly null, and the serialized keys include neither `status` nor
`error`. -/
theorem c5_theorem (cid : UUID) (s₁ s₂ : String) (e₁ e₂ : ErrorInfo) :
    mkSrcErrorResponse s₁ cid e₁ = mkSrcErrorResponse s₂ cid e₂ ∧
    (mkSrcErrorResponse s₁ cid e₁).body = none ∧
    SrcErrorResponse.wireKeys.contains "status" = false ∧
    SrcErrorResponse.wireKeys.contains "error" = false :=
  ⟨rfl, rfl, rfl, rfl⟩

/-- Claim C3: contrary to the claim, `validate_message` never produces
an `invalid_json` reply for any frame - pydantic v2's
`model_validate_json` raises `ValidationError` for malformed JSON too,
so validator.py's first except-clause answers unparseable frames with
`validation_error` and the generic branch is unreachable;
`validation_error` arises exactly for an unparseable frame or
well-formed JSON failing the request schema.  Every failure reply does
carry the all-zero correlation id, with no typed request returned
alongside it. -/
theorem c3_theorem (fresh : UUID) (raw : RawMessage) :
    (((validate_message fresh raw).2.bind ServerMessage.errCode = some "invalid_json")
        ↔ False)
  ∧ (((validate_message fresh raw).2.bind ServerMessage.errCode = some "validation_error")
        ↔ (∃ s, raw = RawMessage.notJson s)
          ∨ ∃ j e, raw = RawMessage.json j ∧ model_validate fresh j = Except.error e)
  ∧ (∀ resp, (validate_message fresh raw).2 = some resp →
        (validate_message fresh raw).1 = none ∧ resp.header.correlation_id = zeroUUID) := by
  cases raw with
  | json j =>
    cases hmv : model_validate fresh j with
    | ok m =>
      have hv : validate_message fresh (RawMessage.json j) = (some m, none) := by
        simp [validate_message, model_validate_json, hmv]
      refine ⟨?_, ?_, ?_⟩
      · rw [hv]
        constructor
        · intro h; simp at h
        · intro h; exact h.elim
      · rw [hv]
        constructor
        · intro h; simp at h
        · rintro (⟨s, hs⟩ | ⟨j', e, hj, he⟩)
          · cases hs
          · cases hj
            rw [hmv] at he
            cases he
      · rw [hv]
        intro resp hresp
        simp at hresp
    | error e =>
      have hv : validate_message fresh (RawMessage.json j)
          = (none, some (mkValidationErrorResp e)) := by
        simp [validate_message, model_validate_json, hmv]
      refine ⟨?_, ?_, ?_⟩
      · rw [hv]
        constructor
        · intro h
          simp [mkValidationErrorResp, ServerMessage.errCode] at h
        · intro h; exact h.elim
      · rw [hv]
        constructor
        · intro _; exact Or.inr ⟨j, e, rfl, hmv⟩
        · intro _; rfl
      · rw [hv]
        intro resp hresp
        injection hresp with h
        rw [← h]
        exact ⟨rfl, rfl⟩
  | notJson s =>
    have hv : validate_message fresh (RawMessage.notJson s)
        = (none, some (mkValidationErrorResp "Invalid JSON")) := rfl
    refine ⟨?_, ?_, ?_⟩
    · rw [hv]
      constructor
      · intro h
        simp [mkValidationErrorResp, ServerMessage.errCode] at h
      · intro h; exact h.elim
    · rw [hv]
      exact ⟨fun _ => Or.inl ⟨s, rfl⟩, fun _ => rfl⟩
    · rw [hv]
      intro resp hresp
      injection hresp with h
      rw [← h]
      exact ⟨rfl, rfl⟩

/-- Claim C3 witness: the unparseable frame `not json` is answered with
`validation_error`, not `invalid_json`. -/
theorem c3_witness :
    (validate_message 1 (RawMessage.notJson "not json")).2.bind ServerMessage.errCode
      = some "validation_error" :=
  (c3_theorem 1 (RawMessage.notJson "not json")).2.1.mpr (Or.inl ⟨"not json", rfl⟩)

/-- Claim C4 counterexample: the frame `jNoCid`, whose header object
lacks `correlation_id`, is *accepted* by validation - pydantic's
`default_factory=uuid4` mints the fresh UUID (here 42) server-side and
no `validation_error` reply is produced, contradicting the claim. -/
theorem c4_counterexample :
    model_validate 42 jNoCid
        = Except.ok { header := ⟨42⟩, body := ⟨"ping", []⟩ } ∧
    (validate_message 42 (RawMessage.json jNoCid)).1
        = some { header := ⟨42⟩, body := ⟨"ping", []⟩ } ∧
    (validate_message 42 (RawMessage.json jNoCid)).2 = none :=
  ⟨rfl, rfl, rfl⟩

/-- Claim C4 (amended): a header lacking `correlation_id` is accepted
with a fresh server-minted UUID (the `default_factory=uuid4` on the
field); validation of the header fails only when `correlation_id` is
present but not a well-formed UUID string. -/
theorem c4_theorem (fresh : UUID) (fields : List (String × Json)) :
    (lookupField fields "correlation_id" = none →
        validateHeader fresh (Json.obj fields) = Except.ok ⟨fresh⟩)
  ∧ (∀ s, lookupField fields "correlation_id" = some (Json.str s) →
        parseUUID s = none →
        validateHeader fresh (Json.obj fields)
          = Except.error "correlation_id: invalid UUID") := by
  constructor
  · intro h
    simp [validateHeader, h]
  · intro s h hp
    simp [validateHeader, h, hp]

/-- Claim C4 witness: the amended statement at an empty header object
and at a header whose `correlation_id` is not a UUID. -/
theorem c4_witness :
    validateHeader 7 (Json.obj []) = Except.ok ⟨7⟩ ∧
    validateHeader 7 (Json.obj [("correlation_id", Json.str "nope")])
      = Except.error "correlation_id: invalid UUID" :=
  ⟨(c4_theorem 7 []).1 rfl, (c4_theorem 7 [("correlation_id", Json.str "nope")]).2 "nope" rfl rfl⟩

/-- A key overwritten by the dict-assignment map is found with its new
value, provided the key was present. -/
theorem find?_overwrite (l : List (String × Value)) (k : String) (v : Value)
    (h : l.any (fun kv => kv.1 = k) = true) :
    (l.map (fun kv => if kv.1 = k then (k, v) else kv)).find? (fun kv => kv.1 = k)
      = some (k, v) := by
  induction l with
  | nil => simp at h
  | cons kv rest ih =>
    by_cases hk : kv.1 = k
    · simp [hk, List.find?]
    · have hrest : rest.any (fun kv => kv.1 = k) = true := by
        simp [List.any_cons, hk] at h
        simpa using h
      have hd : (decide (kv.1 = k)) = false := by simpa using hk
      simp only [List.map_cons, if_neg hk, List.find?, hd]
      exact ih hrest

/-- Claim C6 counterexample: the echo tool declares `tool_registry`, and
a request passing `tool_registry: "evil"` in its args is answered with a
*success* response (not `execution_error`) whose result is the injected
live-registry handle: the client-supplied value was silently overwritten
by the server's registry. -/
theorem c6_counterexample :
    ToolExecutor.execute ⟨regEcho⟩ reqEvil
        = ServerMessage.toolCallResponse ⟨9⟩ ⟨"echo_registry", Value.vregistry⟩ ∧
    reqEvil.body.args.any (fun kv => kv.1 = INJECTED_REGISTRY_PARAM) = true :=
  ⟨rfl, rfl⟩

/-- Claim C6 (amended): for a request whose args contain `tool_registry`,
dispatched to a found tool - if the tool declares the `tool_registry`
parameter, the executor silently overwrites the client value with the
live registry before the call; if it does not, keyword binding fails and
the response is `execution_error`.  Either way the client-supplied value
never reaches the tool as the injected dependency. -/
theorem c6_theorem (e : ToolExecutor) (request : ExecRequest) (tool : Tool)
    (hget : e.tool_registry.get_tool request.body.tool = some tool)
    (hkey : request.body.args.any (fun kv => kv.1 = INJECTED_REGISTRY_PARAM) = true) :
    (declaresRegistry tool = true →
        (executionArgs tool request.body.args).find?
            (fun kv => kv.1 = INJECTED_REGISTRY_PARAM)
          = some (INJECTED_REGISTRY_PARAM, Value.vregistry))
  ∧ (declaresRegistry tool = false →
        ToolExecutor.execute e request
          = ServerMessage.errorResponse ⟨request.header.correlation_id⟩
              ⟨"execution_error",
                "An unexpected error occurred while executing tool "
                  ++ request.body.tool ++ "."⟩) := by
  constructor
  · intro hdecl
    simp only [executionArgs, hdecl, if_pos, setKey, hkey, if_true]
    exact find?_overwrite request.body.args INJECTED_REGISTRY_PARAM Value.vregistry hkey
  · intro hdecl
    have hx : ∃ kv ∈ request.body.args, kv.1 = INJECTED_REGISTRY_PARAM := by
      simpa using hkey
    obtain ⟨kv, hmem, hkv⟩ := hx
    have hall :
        (request.body.args.all
          (fun kv => tool.func.params.any (fun p => p.name = kv.1))) = false := by
      cases hcase : (request.body.args.all
          (fun kv => tool.func.params.any (fun p => p.name = kv.1))) with
      | false => rfl
      | true =>
        exfalso
        have := (List.all_eq_true.mp hcase) kv hmem
        rw [hkv] at this
        rw [declaresRegistry] at hdecl
        simp only [this] at hdecl
        cases hdecl
    have hbind : bindingOk tool.func.params (executionArgs tool request.body.args) = false := by
      simp only [executionArgs, hdecl, if_false, Bool.false_eq_true, ite_false]
      simp [bindingOk, hall]
    simp only [ToolExecutor.execute, hget, Tool.execute, callPy, hbind,
      Bool.false_eq_true, if_false, ite_false]

/-- Claim C6 witness: the amended statement at both concrete tools - the
declaring echo tool (overwrite) and the parameterless tool
(`execution_error`). -/
theorem c6_witness :
    (executionArgs echoRegistryTool reqEvil.body.args).find?
        (fun kv => kv.1 = INJECTED_REGISTRY_PARAM)
      = some (INJECTED_REGISTRY_PARAM, Value.vregistry) ∧
    ToolExecutor.execute ⟨regPlain⟩ reqPlainEvil
      = ServerMessage.errorResponse ⟨8⟩
          ⟨"execution_error",
            "An unexpected error occurred while executing tool plain."⟩ :=
  ⟨(c6_theorem ⟨regEcho⟩ reqEvil echoRegistryTool rfl rfl).1 rfl,
   (c6_theorem ⟨regPlain⟩ reqPlainEvil plainTool rfl rfl).2 rfl⟩

/-- Claim C7: every response the executor produces - success,
`tool_not_found` or `execution_error` - echoes the request's correlation
id unchanged. -/
theorem c7_theorem (e : ToolExecutor) (request : ExecRequest) :
    (ToolExecutor.execute e request).header.correlation_id
      = request.header.correlation_id := by
  rcases hget : e.tool_registry.get_tool request.body.tool with _ | tool
  · simp [ToolExecutor.execute, hget, ServerMessage.header]
  · rcases hex : tool.execute (executionArgs tool request.body.args) with v | m
    · simp [ToolExecutor.execute, hget, hex, ServerMessage.header]
    · simp [ToolExecutor.execute, hget, hex, ServerMessage.header]

/-- Two definition lists sorted by name, related by a permutation and
with pairwise-distinct names, are equal. -/
theorem sorted_defs_eq {l₁ l₂ : List ToolDefinition}
    (hp : l₁.Perm l₂) (hs₁ : List.Sorted defLe l₁) (hs₂ : List.Sorted defLe l₂)
    (hn : (l₁.map ToolDefinition.name).Nodup) : l₁ = l₂ := by
  haveI : IsAntisymm ToolDefinition (fun a b => defLe a b ∧ a.name ≠ b.name) :=
    ⟨fun a b h₁ h₂ => absurd (le_antisymm h₁.1 h₂.1) h₁.2⟩
  have hn' : (l₁.map ToolDefinition.name).Pairwise (· ≠ ·) := hn
  have hn₂ : (l₂.map ToolDefinition.name).Pairwise (· ≠ ·) := ((hp.map _).nodup_iff).mp hn
  have hpn₁ : l₁.Pairwise (fun a b => a.name ≠ b.name) := List.pairwise_map.mp hn'
  have hpn₂ : l₂.Pairwise (fun a b => a.name ≠ b.name) := List.pairwise_map.mp hn₂
  exact List.eq_of_perm_of_sorted hp (hs₁.and hpn₁) (hs₂.and hpn₂)

/-- Claim C8: `get_all_definitions` (and hence the
`list_tools_available` tool) returns the tool definitions sorted by name
ascending, and two registries holding the same tools in different
registration orders (with names distinct, as `register` guarantees)
produce the same output. -/
theorem c8_theorem (r₁ r₂ : ToolRegistry)
    (hperm : r₁.tools.Perm r₂.tools)
    (hnodup : ((r₁.tools.map (fun p => p.2.get_definition)).map ToolDefinition.name).Nodup) :
    List.Sorted defLe r₁.get_all_definitions ∧
    r₁.get_all_definitions = r₂.get_all_definitions ∧
    list_tools_available r₁ = list_tools_available r₂ := by
  have hd : (r₁.tools.map (fun p => p.2.get_definition)).Perm
      (r₂.tools.map (fun p => p.2.get_definition)) := hperm.map _
  have hs₁ := List.sorted_insertionSort defLe (r₁.tools.map (fun p => p.2.get_definition))
  have hs₂ := List.sorted_insertionSort defLe (r₂.tools.map (fun p => p.2.get_definition))
  have hp : r₁.get_all_definitions.Perm r₂.get_all_definitions :=
    (List.perm_insertionSort defLe _).trans
      (hd.trans (List.perm_insertionSort defLe _).symm)
  have hn : (r₁.get_all_definitions.map ToolDefinition.name).Nodup :=
    (((List.perm_insertionSort defLe _).map ToolDefinition.name).nodup_iff).mpr hnodup
  have heq : r₁.get_all_definitions = r₂.get_all_definitions :=
    sorted_defs_eq hp hs₁ hs₂ hn
  exact ⟨hs₁, heq, heq⟩

/-- Claim C8 witness: registering `beta` then `alpha` and `alpha` then
`beta` yields the same sorted definition listing. -/
theorem c8_witness :
    List.Sorted defLe (registerAll [tBeta, tAlpha1]).get_all_definitions ∧
    (registerAll [tBeta, tAlpha1]).get_all_definitions
      = (registerAll [tAlpha1, tBeta]).get_all_definitions ∧
    list_tools_available (registerAll [tBeta, tAlpha1])
      = list_tools_available (registerAll [tAlpha1, tBeta]) :=
  c8_theorem _ _
    (by
      rw [show (registerAll [tBeta, tAlpha1]).tools
            = [("beta", tBeta), ("alpha", tAlpha1)] from rfl,
          show (registerAll [tAlpha1, tBeta]).tools
            = [("alpha", tAlpha1), ("beta", tBeta)] from rfl]
      exact List.Perm.swap ("alpha", tAlpha1) ("beta", tBeta) [])
    (by decide)

/-- Claim C9 counterexample: sending to connection 5, whose socket the
peer has closed, leaves the connection map unchanged - the entry is
*not* removed by `send_message` (removal is the reader task's job),
contradicting the claim that the closed-socket error removes the
entry. -/
theorem c9_counterexample :
    ConnectionManager.send_message cmClosed 5 "frame" = cmClosed ∧
    (ConnectionManager.send_message cmClosed 5 "frame").get 5 = some ⟨true, []⟩ :=
  ⟨rfl, rfl⟩

/-- Claim C9 (amended): `send_message` to an id not in the map is a
no-op, and on a closed socket it swallows the error and drops the
message while keeping the entry; removal is performed by `disconnect`
(which the reading task calls), and `disconnect` is idempotent. -/
theorem c9_theorem (m : ConnectionManager) (id : UUID) (frame : String) :
    (m.get id = none → m.send_message id frame = m)
  ∧ (∀ st, m.get id = some st → st.closed = true → m.send_message id frame = m)
  ∧ (m.disconnect id).get id = none
  ∧ (m.disconnect id).disconnect id = m.disconnect id := by
  refine ⟨?_, ?_, ?_, ?_⟩
  · intro h
    simp [ConnectionManager.send_message, h]
  · intro st h hc
    simp [ConnectionManager.send_message, h, hc]
  · simp only [ConnectionManager.get, ConnectionManager.disconnect]
    rw [List.find?_eq_none.mpr, Option.map_none']
    intro x hx
    have hne := (List.mem_filter.mp hx).2
    simp only [ne_eq, decide_not, Bool.not_eq_true', decide_eq_false_iff_not] at hne
    simp [hne]
  · simp only [ConnectionManager.disconnect, ConnectionManager.mk.injEq]
    rw [List.filter_filter]
    simp

/-- Claim C9 witness: the amended statement at an id absent from the map
and at the closed connection 5. -/
theorem c9_witness :
    ConnectionManager.send_message cmClosed 7 "f" = cmClosed ∧
    ConnectionManager.send_message cmClosed 5 "f" = cmClosed :=
  ⟨(c9_theorem cmClosed 7 "f").1 rfl,
   (c9_theorem cmClosed 5 "f").2.1 ⟨true, []⟩ rfl rfl⟩

end Pymcp
